import Mathlib

/-!
Shallow embedding of the chat/persistence code of this repository
(HIM.py, api_server.py, server.py) and proofs about it.

Conventions of the embedding:
* Python strings are Lean `String`; `str.strip()` is `strip`.
* A Python value that may be `None` is an `Option`.
* Python truthiness of an optional string (`if key:`) is `truthy`.
* Files are passed in explicitly: `none` models a missing file, `some c`
  its content (for the `.env` file, its list of lines).
* `sys.exit(msg)` is modelled as `Except.error msg`; a normal return as
  `Except.ok`.
-/

namespace Spec2Proof

/-- Python truthiness of an optional string: `None` and `""` are falsy. -/
def truthy : Option String → Bool
  | none => false
  | some s => !(s = "")

/-- Python `x or None` on an optional string: an empty string collapses to `None`. -/
def orNone : Option String → Option String
  | none => none
  | some s => if s = "" then none else some s

/-- Python `s.strip()`: drop whitespace from both ends. (Structural stand-in
for `String.trim`, which the kernel cannot evaluate.) -/
def strip (s : String) : String :=
  String.mk (((s.toList.dropWhile Char.isWhitespace).reverse.dropWhile
    Char.isWhitespace).reverse)

/-- Python `s.startswith(pre)`. -/
def startswith (pre s : String) : Bool :=
  pre.toList.isPrefixOf s.toList

/-- Splitting a character list at every occurrence of `c` (Python
`str.split(c)` / the line structure of a text). -/
def splitOnChar (c : Char) : List Char → List (List Char)
  | [] => [[]]
  | x :: xs =>
    match splitOnChar c xs with
    | [] => [[x]]
    | h :: t => if x = c then [] :: h :: t else (x :: h) :: t

/-- The lines of a text, splitting at every newline. -/
def splitLines (s : String) : List String :=
  (splitOnChar '\n' s.toList).map String.mk

/-- Python `s.endswith(suf)`. -/
def endswith (suf s : String) : Bool :=
  suf.toList.isSuffixOf s.toList

/-- Python `line.split("=", 1)`: `none` when no `=` occurs, otherwise the
text before the first `=` and everything after it. -/
def splitOnceEq (line : String) : Option (String × String) :=
  let cs := line.toList
  if '=' ∈ cs then
    some (String.mk (cs.takeWhile (· ≠ '=')),
          String.mk ((cs.dropWhile (· ≠ '=')).drop 1))
  else none

/-- Python `s.strip(c)` for a single character `c`: drop all leading and
trailing occurrences of `c`. -/
def stripCharEnds (c : Char) (s : String) : String :=
  String.mk (((s.toList.dropWhile (· = c)).reverse.dropWhile (· = c)).reverse)

/-- The value cleanup of `_read_dotenv`: `v.strip().strip(dquote).strip(squote)`. -/
def cleanValue (v : String) : String :=
  stripCharEnds '\'' (stripCharEnds '"' (strip v))

/-- One iteration of the `_read_dotenv` loop body (HIM.py lines 61-73):
the key this line yields, or `none` when the loop would `continue`. -/
def dotenvLine (raw : String) : Option String :=
  let line := strip raw
  if line = "" then none
  else if startswith "#" line then none
  else
    match splitOnceEq line with
    | none => none
    | some (k, v) =>
      let k := strip k
      let v := cleanValue v
      if k = "GEMINI_API_KEY" ∧ v ≠ "" then some v
      else if k = "GOOGLE_API_KEY" ∧ v ≠ "" then some v
      else none

/-- `_read_dotenv` (HIM.py lines 52-76): `none` for a missing file, else the
first line that yields a key; exceptions are swallowed to `none`. -/
def _read_dotenv (file : Option (List String)) : Option String :=
  match file with
  | none => none
  | some lines => lines.findSome? dotenvLine

/-- `_read_first_line` (HIM.py lines 42-49). Despite its name it reads the
whole file: `path.read_text().strip()`, returning `none` when missing or blank. -/
def _read_first_line (file : Option String) : Option String :=
  match file with
  | none => none
  | some content =>
    let line := strip content
    if line = "" then none else some line

/-- The inputs `load_api_key` consults: CLI flag, the two environment
variables, the `./.env` file (as lines) and the `~/.gemini-api-key` file. -/
structure KeyEnv where
  preferred : Option String
  geminiEnv : Option String
  googleEnv : Option String
  dotenvFile : Option (List String)
  homeFile : Option String

/-- One line of the search report: `"  - {where}: {FOUND | not found}"`. -/
def reportLine (entry : String × Bool) : String :=
  "  - " ++ entry.1 ++ ": " ++ (if entry.2 then "FOUND" else "not found")

/-- The `sys.exit` diagnostic of `load_api_key` (HIM.py lines 119-130). -/
def missingKeyMessage (report : List (String × Bool)) : String :=
  String.intercalate "\n"
    (["Missing Gemini API key. I looked in:"]
      ++ report.map reportLine
      ++ ["",
          "Fix one of the following:",
          "  • Pass a flag:    python therapist_chatbot.py --api-key YOUR_KEY",
          "  • Export env var: export GEMINI_API_KEY=YOUR_KEY   (zsh/bash)",
          "  • Put it in .env: echo 'GEMINI_API_KEY=YOUR_KEY' > .env",
          "  • Save a file:    echo 'YOUR_KEY' > ~/.gemini-api-key"])

/-- `load_api_key` (HIM.py lines 79-130). `Except.error` is `sys.exit`. -/
def load_api_key (env : KeyEnv) : Except String String :=
  if truthy env.preferred then .ok (strip (env.preferred.getD ""))
  else if truthy env.geminiEnv then .ok (strip (env.geminiEnv.getD ""))
  else if truthy env.googleEnv then .ok (strip (env.googleEnv.getD ""))
  else
    let kd := _read_dotenv env.dotenvFile
    if truthy kd then .ok (strip (kd.getD ""))
    else
      let kh := _read_first_line env.homeFile
      if truthy kh then .ok (strip (kh.getD ""))
      else .error (missingKeyMessage
        [("env:GEMINI_API_KEY", truthy env.geminiEnv),
         ("env:GOOGLE_API_KEY", truthy env.googleEnv),
         (".env", truthy kd),
         ("~/.gemini-api-key", truthy kh)])

/-! ### The SQLite store (class `ChatLog`, HIM.py lines 137-211) -/

/-- A row of the `sessions` table. -/
structure SessionRow where
  id : String
  created_at : String
  title : Option String
deriving DecidableEq, Repr

/-- A row of the `messages` table; `id` is the AUTOINCREMENT primary key. -/
structure MessageRow where
  id : Nat
  session_id : String
  role : String
  content : String
  ts : String
deriving DecidableEq, Repr

/-- The database file: both tables plus the next AUTOINCREMENT id. -/
structure DB where
  sessions : List SessionRow
  messages : List MessageRow
  next_id : Nat
deriving DecidableEq, Repr

/-- A freshly created database (AUTOINCREMENT starts at 1). -/
def DB.empty : DB := ⟨[], [], 1⟩

/-- A row as returned by `ChatLog.history`: `{"role", "content", "ts"}`. -/
structure HistRow where
  role : String
  content : String
  ts : String
deriving DecidableEq, Repr

namespace ChatLog

/-- `create_session` (HIM.py lines 171-177): `INSERT OR IGNORE` on the
primary key `id`; `title or None` collapses an empty title to NULL.
`now` is `datetime.now(timezone.utc).isoformat()`. -/
def create_session (db : DB) (session_id : String) (now : String)
    (title : Option String := none) : DB :=
  if db.sessions.any (fun s => s.id = session_id) then db
  else { db with sessions := db.sessions ++ [⟨session_id, now, orNone title⟩] }

/-- `append` (HIM.py lines 187-193): insert a message row, the engine
assigning the next AUTOINCREMENT id; `ts` is the insertion timestamp. -/
def append (db : DB) (session_id role content ts : String) : DB :=
  { db with
    messages := db.messages ++ [⟨db.next_id, session_id, role, content, ts⟩],
    next_id := db.next_id + 1 }

/-- The comparison of `ORDER BY id ASC`. -/
def idLE (a b : MessageRow) : Prop := a.id ≤ b.id

instance : DecidableRel idLE := fun a b => inferInstanceAs (Decidable (a.id ≤ b.id))

/-- `history` (HIM.py lines 195-202): rows of the session, ordered by
insertion id ascending, projected to role/content/ts. -/
def history (db : DB) (session_id : String) : List HistRow :=
  ((db.messages.filter (fun m => m.session_id = session_id)).insertionSort idLE).map
    (fun m => ⟨m.role, m.content, m.ts⟩)

/-- Python `str.capitalize()`: first character upper-cased, the rest lower. -/
def capitalize (s : String) : String :=
  match s.toList with
  | [] => ""
  | c :: rest => String.mk (c.toUpper :: rest.map Char.toLower)

/-- `export_markdown` (HIM.py lines 204-211): the text written to the
output file (the write itself is the function result here). -/
def export_markdown (db : DB) (session_id : String) : String :=
  let msgs := history db session_id
  let lines := ["# Session " ++ session_id, ""]
    ++ msgs.map (fun m =>
        "**" ++ capitalize m.role ++ " (" ++ m.ts ++ ")**\n\n" ++ m.content ++ "\n")
  String.intercalate "\n" lines

end ChatLog

/-! ### History projection and typewriter (HIM.py lines 231-270) -/

/-- One entry of the Gemini chat history: `{"role": r, "parts": [{"text": c}]}`;
`parts` is kept as the list of its `text` fields. -/
structure GeminiMsg where
  role : String
  parts : List String
deriving DecidableEq, Repr

/-- `to_chat_history_for_gemini` (HIM.py lines 231-242), as the source loop:
start from `[]`, skip rows whose role is neither `user` nor `model`,
append the rest. -/
def to_chat_history_for_gemini (history_rows : List HistRow) : List GeminiMsg :=
  history_rows.foldl
    (fun hist r =>
      if r.role ≠ "user" ∧ r.role ≠ "model" then hist
      else hist ++ [⟨r.role, [r.content]⟩])
    []

/-- Observable effects of `type_out`: characters printed and sleeps taken. -/
inductive OutEvent where
  | print (s : String)
  | sleep (d : ℚ)
deriving DecidableEq, Repr

/-- The sleep after one character in `type_out` (HIM.py lines 262-270),
with `base = 1/cps`. -/
def charDelay (base : ℚ) (ch : Char) : ℚ :=
  if ch ∈ ['.', '!', '?'] then base * 8
  else if ch ∈ [',', ';', ':'] then base * 4
  else if ch = '\n' then base * 6
  else base

/-- `type_out` (HIM.py lines 248-270) as its trace of prints and sleeps. -/
def type_out (s : String) (cps : Int) : List OutEvent :=
  if s = "" then []
  else if cps ≤ 0 then [.print s]
  else
    let base : ℚ := 1 / (cps : ℚ)
    (s.toList.map (fun ch =>
      [OutEvent.print (String.mk [ch]), OutEvent.sleep (charDelay base ch)])).flatten

/-- The text a trace prints, in order. -/
def emitted : List OutEvent → String
  | [] => ""
  | .print s :: rest => s ++ emitted rest
  | .sleep _ :: rest => emitted rest

/-- Whether an event is a sleep. -/
def isSleep : OutEvent → Bool
  | .sleep _ => true
  | .print _ => false

/-! ### The lightweight HTTP API (`api_server.py`, `/api/chat`) -/

/-- Outcome of the non-streamed `chat.send_message` call: the reply object's
`text` attribute (missing/None folded to `none`), or a raised exception. -/
inductive SendOutcome where
  | ok (text : Option String)
  | raised (e : String)

/-- Response of the Flask endpoint: a JSON reply, or an error JSON with an
HTTP status and optional detail. -/
inductive FlaskResult where
  | replyOk (reply : String)
  | err (status : Nat) (error : String) (detail : Option String)
deriving DecidableEq, Repr

/-- `chat_once` (api_server.py lines 36-56). `sessionField`/`msgField` are
`data.get(...)`; `today` is `datetime.now().strftime(pct-Y-m-d-compact)`;
`now`, `tsU`, `tsM` are the timestamps of the session insert and the two
message inserts. -/
def chat_once (db : DB) (sessionField msgField : Option String)
    (today now tsU tsM : String) (outcome : SendOutcome) : DB × FlaskResult :=
  let session_id := strip ((orNone sessionField).getD today)
  let user_msg := strip (msgField.getD "")
  if user_msg = "" then (db, .err 400 "message is required" none)
  else
    let db1 := ChatLog.create_session db session_id now
    let db2 := ChatLog.append db1 session_id "user" user_msg tsU
    match outcome with
    | .raised e => (db2, .err 500 "server_error" (some e))
    | .ok t =>
      let reply :=
        let r := strip (t.getD "")
        if r = "" then "(empty reply)" else r
      let db3 := ChatLog.append db2 session_id "model" reply tsM
      (db3, .replyOk reply)

/-! ### The full HTTP API (`server.py`, `/api/chat`) -/

/-- Outcome of `model.start_chat` + `chat.send_message(stream=True)` and the
iteration over the stream: init failure, failure mid-stream, or the list of
chunks (each chunk's `text` attribute, missing/None folded to `none`). -/
inductive StreamOutcome where
  | initFailure (e : String)
  | streamFailure (chunksBefore : List (Option String)) (e : String)
  | chunks (cs : List (Option String))

/-- Response of the FastAPI endpoint: `ChatOut` or an `HTTPException`. -/
inductive ApiResult where
  | ok (reply : String)
  | httpError (status : Nat) (detail : String)
deriving DecidableEq, Repr

/-- The `parts` accumulation loop of server.py lines 105-110: keep each
chunk's truthy `text`. -/
def collectParts (cs : List (Option String)) : List String :=
  cs.foldl
    (fun parts c =>
      match c with
      | some t => if t ≠ "" then parts ++ [t] else parts
      | none => parts)
    []

/-- `chat` (server.py lines 87-122). `now`, `tsU`, `tsM` are the timestamps
of the session insert and the two message inserts. -/
def server_chat (db : DB) (session_id message : String) (now tsU tsM : String)
    (outcome : StreamOutcome) : DB × ApiResult :=
  if strip message = "" then (db, .httpError 400 "message is required")
  else
    let db1 := ChatLog.create_session db session_id now
    match outcome with
    | .initFailure e => (db1, .httpError 500 ("Gemini init failed: " ++ e))
    | .streamFailure _ e => (db1, .httpError 500 ("Gemini stream error: " ++ e))
    | .chunks cs =>
      let reply := strip (String.join (collectParts cs))
      if reply = "" then (db1, .httpError 502 "Empty response from model")
      else
        let db2 := ChatLog.append db1 session_id "user" message tsU
        let db3 := ChatLog.append db2 session_id "model" reply tsM
        (db3, .ok reply)

/-! ### Module surfaces (for the `SilenceNativeStderr` import in server.py) -/

/-- The names bound at module level in HIM.py: imports (lines 2-17) and the
module's own definitions. -/
def HIM_module_names : List String :=
  ["os", "contextlib", "genai", "sys", "sqlite3", "argparse", "Path",
   "datetime", "timezone", "List", "Dict", "Optional", "time",
   "MODEL_NAME", "DB_PATH", "SYSTEM_PROMPT",
   "_read_first_line", "_read_dotenv", "load_api_key",
   "ChatLog", "build_model", "to_chat_history_for_gemini",
   "type_out", "run_chat", "main"]

/-- The names server.py imports from HIM (server.py lines 11-17). -/
def server_HIM_imports : List String :=
  ["ChatLog", "build_model", "to_chat_history_for_gemini", "load_api_key",
   "SilenceNativeStderr"]

/-! ### Specification-side definitions used to state the claims -/

/-- Invariant of every database reachable through the store's operations:
message ids strictly increase along the table and stay below `next_id`. -/
def WF (db : DB) : Prop :=
  db.messages.Pairwise (fun a b => a.id < b.id)
    ∧ ∀ m ∈ db.messages, m.id < db.next_id

/-- One `ChatLog.append` call as data: its arguments. -/
structure MsgOp where
  sid : String
  role : String
  content : String
  ts : String

/-- Running a sequence of `append` calls against the store, in order. -/
def applyOps (db : DB) (ops : List MsgOp) : DB :=
  ops.foldl (fun d op => ChatLog.append d op.sid op.role op.content op.ts) db

/-- The delay multiplier the specification assigns to each character:
sentence punctuation 8x, clause punctuation 4x, newline 6x, otherwise 1x. -/
def delayMult (ch : Char) : ℚ :=
  if ch ∈ ['.', '!', '?'] then 8
  else if ch ∈ [',', ';', ':'] then 4
  else if ch = '\n' then 6
  else 1

/-! ### Helper lemmas -/

theorem tchg_foldl (rows : List HistRow) (acc : List GeminiMsg) :
    rows.foldl
      (fun hist r =>
        if r.role ≠ "user" ∧ r.role ≠ "model" then hist
        else hist ++ [⟨r.role, [r.content]⟩])
      acc
    = acc ++ (rows.filter (fun r => r.role = "user" ∨ r.role = "model")).map
        (fun r => ⟨r.role, [r.content]⟩) := by
  induction rows generalizing acc with
  | nil => simp
  | cons r rs ih =>
    by_cases h : r.role = "user" ∨ r.role = "model"
    · have hne : ¬(r.role ≠ "user" ∧ r.role ≠ "model") := by tauto
      simp only [List.foldl_cons, if_neg hne, ih, List.filter_cons,
        decide_eq_true_eq, if_pos h, List.map_cons]
      simp
    · have hne : r.role ≠ "user" ∧ r.role ≠ "model" := by tauto
      simp only [List.foldl_cons, if_pos hne, ih, List.filter_cons,
        decide_eq_true_eq, if_neg h]

theorem create_session_messages (db : DB) (sid now : String) (t : Option String) :
    (ChatLog.create_session db sid now t).messages = db.messages := by
  unfold ChatLog.create_session
  split <;> rfl

theorem create_session_next_id (db : DB) (sid now : String) (t : Option String) :
    (ChatLog.create_session db sid now t).next_id = db.next_id := by
  unfold ChatLog.create_session
  split <;> rfl

/-! ### C7 -/

/-- C7: `to_chat_history_for_gemini` keeps exactly the rows whose role is
`user` or `model`, in their original relative order, carrying each row's
content unchanged into the role/parts shape, and drops every other row. -/
theorem C7_history_projection (rows : List HistRow) :
    to_chat_history_for_gemini rows
      = (rows.filter (fun r => r.role = "user" ∨ r.role = "model")).map
          (fun r => ⟨r.role, [r.content]⟩) := by
  unfold to_chat_history_for_gemini
  simpa using tchg_foldl rows []

/-! ### C5 -/

/-- C5: session creation is insert-if-absent. For a fresh id, a second
`create_session` with the same id (any other title, any later timestamp) is
a no-op, and the table holds exactly one row for that id, carrying the first
call's title (Python `title or None` collapses `""` to NULL) and the first
call's `created_at`. Moreover for an id already present, `create_session`
changes nothing at all, so `created_at` never changes after first insertion. -/
theorem C5_create_session_insert_if_absent :
    (∀ (db : DB) (sid now1 now2 : String) (t1 t2 : Option String),
      (∀ r ∈ db.sessions, r.id ≠ sid) →
      ChatLog.create_session (ChatLog.create_session db sid now1 t1) sid now2 t2
          = ChatLog.create_session db sid now1 t1
        ∧ (ChatLog.create_session db sid now1 t1).sessions.filter
            (fun s => s.id = sid) = [⟨sid, now1, orNone t1⟩])
    ∧ (∀ (db : DB) (sid now : String) (t : Option String),
        (∃ r ∈ db.sessions, r.id = sid) →
        ChatLog.create_session db sid now t = db) := by
  constructor
  · intro db sid now1 now2 t1 t2 hfresh
    have hany : db.sessions.any (fun s => s.id = sid) = false := by
      simp only [List.any_eq_false, decide_eq_true_eq]
      exact hfresh
    have hdb1 : ChatLog.create_session db sid now1 t1
        = { db with sessions := db.sessions ++ [⟨sid, now1, orNone t1⟩] } := by
      unfold ChatLog.create_session
      rw [hany]
      simp
    constructor
    · rw [hdb1]
      unfold ChatLog.create_session
      have : (db.sessions ++ [(⟨sid, now1, orNone t1⟩ : SessionRow)]).any
          (fun s => s.id = sid) = true := by
        simp
      rw [this]
      simp
    · rw [hdb1]
      simp only [List.filter_append]
      have h1 : db.sessions.filter (fun s => decide (s.id = sid)) = [] := by
        rw [List.filter_eq_nil_iff]
        intro r hr
        simpa using hfresh r hr
      have h2 : ([(⟨sid, now1, orNone t1⟩ : SessionRow)]).filter
          (fun s => decide (s.id = sid)) = [⟨sid, now1, orNone t1⟩] := by
        simp
      simp only [h1, h2, List.nil_append]
  · intro db sid now t ⟨r, hr, hid⟩
    unfold ChatLog.create_session
    have : db.sessions.any (fun s => s.id = sid) = true := by
      simp only [List.any_eq_true, decide_eq_true_eq]
      exact ⟨r, hr, hid⟩
    rw [this]
    simp

/-- Witness for C5 at a concrete store: id `"s"` created twice with titles
`"first"` then `"second"`. -/
theorem C5_create_session_insert_if_absent_witness :
    ChatLog.create_session
        (ChatLog.create_session DB.empty "s" "2025-01-01T00:00:00+00:00" (some "first"))
        "s" "2025-02-02T00:00:00+00:00" (some "second")
      = ChatLog.create_session DB.empty "s" "2025-01-01T00:00:00+00:00" (some "first")
    ∧ (ChatLog.create_session DB.empty "s" "2025-01-01T00:00:00+00:00"
          (some "first")).sessions.filter (fun s => s.id = "s")
      = [⟨"s", "2025-01-01T00:00:00+00:00", orNone (some "first")⟩] :=
  C5_create_session_insert_if_absent.1 DB.empty "s"
    "2025-01-01T00:00:00+00:00" "2025-02-02T00:00:00+00:00"
    (some "first") (some "second") (by intro r hr; simp [DB.empty] at hr)

/-! ### C2 -/

/-- C2: server.py imports `SilenceNativeStderr` from the chat library HIM,
but HIM binds no such name at module level, so the import of the full-variant
API fails; the library does not expose the claimed stderr-suppression
facility as an importable context manager (it only performs an inline
`redirect_stderr` around its own SDK import). -/
theorem C2_silencer_not_exported :
    "SilenceNativeStderr" ∈ server_HIM_imports
      ∧ "SilenceNativeStderr" ∉ HIM_module_names := by
  decide

/-! ### C6: ordering machinery -/

theorem WF_empty : WF DB.empty := by
  constructor
  · simp [DB.empty]
  · simp [DB.empty]

theorem WF_append (db : DB) (sid role content ts : String) (h : WF db) :
    WF (ChatLog.append db sid role content ts) := by
  obtain ⟨hpw, hlt⟩ := h
  constructor
  · unfold ChatLog.append
    simp only [List.pairwise_append, List.pairwise_cons, List.mem_singleton]
    refine ⟨hpw, by simp, ?_⟩
    intro a ha b hb
    subst hb
    exact hlt a ha
  · unfold ChatLog.append
    intro m hm
    simp only [List.mem_append, List.mem_singleton] at hm
    rcases hm with hm | hm
    · exact Nat.lt_succ_of_lt (hlt m hm)
    · subst hm; exact Nat.lt_succ_self _

theorem WF_create_session (db : DB) (sid now : String) (t : Option String)
    (h : WF db) : WF (ChatLog.create_session db sid now t) := by
  obtain ⟨hpw, hlt⟩ := h
  constructor
  · rw [create_session_messages]; exact hpw
  · rw [create_session_messages, create_session_next_id]; exact hlt

theorem history_eq_filter_of_WF (db : DB) (sid : String) (h : WF db) :
    ChatLog.history db sid
      = (db.messages.filter (fun m => m.session_id = sid)).map
          (fun m => ⟨m.role, m.content, m.ts⟩) := by
  unfold ChatLog.history
  have hsorted : List.Sorted ChatLog.idLE
      (db.messages.filter (fun m => m.session_id = sid)) :=
    (h.1.sublist (List.filter_sublist _)).imp (fun hab => Nat.le_of_lt hab)
  rw [hsorted.insertionSort_eq]

theorem history_append (db : DB) (sid s role content ts : String) (h : WF db) :
    ChatLog.history (ChatLog.append db s role content ts) sid
      = ChatLog.history db sid
          ++ (if s = sid then [(⟨role, content, ts⟩ : HistRow)] else []) := by
  rw [history_eq_filter_of_WF _ _ (WF_append db s role content ts h),
      history_eq_filter_of_WF _ _ h]
  unfold ChatLog.append
  simp only [List.filter_append, List.map_append]
  congr 1
  by_cases hs : s = sid
  · simp [hs]
  · simp [hs]

theorem WF_applyOps (ops : List MsgOp) (db : DB) (h : WF db) :
    WF (applyOps db ops) := by
  induction ops generalizing db with
  | nil => exact h
  | cons op ops ih =>
    exact ih _ (WF_append db op.sid op.role op.content op.ts h)

theorem history_applyOps (ops : List MsgOp) (db : DB) (sid : String) (h : WF db) :
    ChatLog.history (applyOps db ops) sid
      = ChatLog.history db sid
          ++ (ops.filter (fun o => o.sid = sid)).map
              (fun o => ⟨o.role, o.content, o.ts⟩) := by
  induction ops generalizing db with
  | nil => simp [applyOps]
  | cons op ops ih =>
    have step : applyOps db (op :: ops)
        = applyOps (ChatLog.append db op.sid op.role op.content op.ts) ops := rfl
    rw [step, ih _ (WF_append db op.sid op.role op.content op.ts h),
        history_append db sid op.sid op.role op.content op.ts h]
    by_cases hs : op.sid = sid
    · simp [List.filter_cons, hs]
    · simp [List.filter_cons, hs]

/-- C6: appending three messages to a session, with arbitrary appends to
other sessions interleaved anywhere among them, yields a history for that
session that extends the prior history by exactly those three rows, in
order, each carrying its role, content and timestamp. -/
theorem C6_history_order (db : DB) (s : String) (ops : List MsgOp)
    (a b c : MsgOp) (hwf : WF db)
    (hfilter : ops.filter (fun o => o.sid = s) = [a, b, c]) :
    ChatLog.history (applyOps db ops) s
      = ChatLog.history db s
          ++ [⟨a.role, a.content, a.ts⟩, ⟨b.role, b.content, b.ts⟩,
              ⟨c.role, c.content, c.ts⟩] := by
  rw [history_applyOps ops db s hwf, hfilter]
  rfl

/-- Witness for C6: messages A, B, C appended to session `"s"` with two
appends to session `"other"` interleaved. -/
theorem C6_history_order_witness :
    ChatLog.history
        (applyOps DB.empty
          [⟨"s", "user", "A", "t1"⟩, ⟨"other", "user", "X", "t2"⟩,
           ⟨"s", "model", "B", "t3"⟩, ⟨"other", "model", "Y", "t4"⟩,
           ⟨"s", "user", "C", "t5"⟩])
        "s"
      = ChatLog.history DB.empty "s"
          ++ [⟨"user", "A", "t1"⟩, ⟨"model", "B", "t3"⟩, ⟨"user", "C", "t5"⟩] :=
  C6_history_order DB.empty "s"
    [⟨"s", "user", "A", "t1"⟩, ⟨"other", "user", "X", "t2"⟩,
     ⟨"s", "model", "B", "t3"⟩, ⟨"other", "model", "Y", "t4"⟩,
     ⟨"s", "user", "C", "t5"⟩]
    ⟨"s", "user", "A", "t1"⟩ ⟨"s", "model", "B", "t3"⟩ ⟨"s", "user", "C", "t5"⟩
    WF_empty (by rfl)

/-! ### C10 -/

/-- C10: exporting a session id with no stored messages (in particular an id
with no session row at all) does not fail and produces exactly the heading
line naming the session id followed by one empty line: the text
`"# Session {id}\n"`, with no role/timestamp entries. -/
theorem C10_export_empty_session (db : DB) (sid : String)
    (h : db.messages.filter (fun m => m.session_id = sid) = []) :
    ChatLog.export_markdown db sid = "# Session " ++ sid ++ "\n"
      ∧ ChatLog.export_markdown db sid
          = String.intercalate "\n" ["# Session " ++ sid, ""] := by
  have hist : ChatLog.history db sid = [] := by
    unfold ChatLog.history
    rw [h]
    rfl
  have hexp : ChatLog.export_markdown db sid
      = String.intercalate "\n" ["# Session " ++ sid, ""] := by
    unfold ChatLog.export_markdown
    rw [hist]
    rfl
  refine ⟨?_, hexp⟩
  rw [hexp]
  simp [String.intercalate, String.intercalate.go, String.append_empty,
    String.append_assoc]

/-- Witness for C10: exporting the never-written session `"ghost"` from an
empty store. -/
theorem C10_export_empty_session_witness :
    ChatLog.export_markdown DB.empty "ghost" = "# Session ghost\n" :=
  (C10_export_empty_session DB.empty "ghost" (by rfl)).1

/-! ### C9 -/

theorem emitted_per_char (cs : List Char) (d : Char → ℚ) :
    emitted ((cs.map (fun ch =>
        [OutEvent.print (String.mk [ch]), OutEvent.sleep (d ch)])).flatten)
      = String.mk cs := by
  induction cs with
  | nil => rfl
  | cons c rest ih =>
    show String.mk [c] ++ emitted
        ((rest.map (fun ch =>
          [OutEvent.print (String.mk [ch]), OutEvent.sleep (d ch)])).flatten)
      = String.mk (c :: rest)
    rw [ih]
    rfl

/-- C9: `type_out` emits exactly the input's characters in order; with rate
at most 0 it prints the whole string with no sleep in the trace; with
positive rate the trace is, per character, a print of that character
followed by a sleep of `delayMult ch * (1/rate)` seconds, where the
multiplier is 8 for `.` `!` `?`, 4 for `,` `;` `:`, 6 for newline and 1
otherwise. -/
theorem C9_type_out_pacing (s : String) (cps : Int) :
    emitted (type_out s cps) = s
    ∧ (cps ≤ 0 → (type_out s cps).filter isSleep = [])
    ∧ (0 < cps → type_out s cps
        = (s.toList.map (fun ch =>
            [OutEvent.print (String.mk [ch]),
             OutEvent.sleep (delayMult ch * (1 / (cps : ℚ)))])).flatten) := by
  refine ⟨?_, ?_, ?_⟩
  · unfold type_out
    split
    · next hs => rw [hs]; rfl
    · split
      · show s ++ "" = s
        simp
      · rw [emitted_per_char]
        rfl
  · intro hle
    unfold type_out
    split
    · rfl
    · rfl
  · intro hpos
    unfold type_out
    split
    · next hs => subst hs; rfl
    · split
      · next hle => exact absurd hle (not_le.mpr hpos)
      · have hmul : ∀ ch, charDelay (1 / (cps : ℚ)) ch
            = delayMult ch * (1 / (cps : ℚ)) := by
          intro ch
          unfold charDelay delayMult
          split_ifs <;> ring
        simp only [hmul]

/-- Witness for C9 at the string `"Hi.\n"` with rate 2 (positive-rate
conjunct) and rate 0 (instant conjunct). -/
theorem C9_type_out_pacing_witness :
    (0 : Int) < 2
    ∧ type_out "Hi.\n" 2
        = ((("Hi.\n" : String).toList.map (fun ch =>
            [OutEvent.print (String.mk [ch]),
             OutEvent.sleep (delayMult ch * (1 / ((2 : Int) : ℚ)))])).flatten)
    ∧ (0 : Int) ≤ 0
    ∧ (type_out "Hi.\n" 0).filter isSleep = []
    ∧ emitted (type_out "Hi.\n" 2) = "Hi.\n" :=
  ⟨by decide, (C9_type_out_pacing "Hi.\n" 2).2.2 (by decide), by decide,
   (C9_type_out_pacing "Hi.\n" 0).2.1 (by decide),
   (C9_type_out_pacing "Hi.\n" 2).1⟩

/-! ### C3 -/

/-- C3: in the full-variant `/api/chat`, a stream whose concatenated,
filtered text trims to the empty string yields the 502 "Empty response from
model" error, and the messages table is left exactly as it was (only the
insert-if-absent session row may be touched; no user and no model message
is appended). -/
theorem C3_empty_reply_not_persisted (db : DB) (sid msg now tsU tsM : String)
    (cs : List (Option String))
    (hmsg : strip msg ≠ "")
    (hempty : strip (String.join (collectParts cs)) = "") :
    server_chat db sid msg now tsU tsM (.chunks cs)
        = (ChatLog.create_session db sid now,
           .httpError 502 "Empty response from model")
      ∧ (server_chat db sid msg now tsU tsM (.chunks cs)).1.messages
          = db.messages := by
  have hres : server_chat db sid msg now tsU tsM (.chunks cs)
      = (ChatLog.create_session db sid now,
         .httpError 502 "Empty response from model") := by
    unfold server_chat
    rw [if_neg hmsg]
    simp [hempty]
  exact ⟨hres, by rw [hres]; exact create_session_messages db sid now none⟩

/-- Witness for C3: message `"hello"`, a stream of one text-less chunk and
one empty-text chunk, against the empty store. -/
theorem C3_empty_reply_not_persisted_witness :
    strip "hello" ≠ ""
    ∧ strip (String.join (collectParts [none, some ""])) = ""
    ∧ server_chat DB.empty "s" "hello" "n" "t1" "t2" (.chunks [none, some ""])
        = (ChatLog.create_session DB.empty "s" "n",
           .httpError 502 "Empty response from model") :=
  ⟨by decide, by decide,
   (C3_empty_reply_not_persisted DB.empty "s" "hello" "n" "t1" "t2"
      [none, some ""] (by decide) (by decide)).1⟩

/-! ### C4 -/

/-- C4: in the lightweight `/api/chat` with a non-empty trimmed message, a
reply whose text is absent or trims to empty is stored and returned as the
literal `"(empty reply)"`; and whatever the model call's outcome (including
a raised exception), the user message is already persisted, directly after
the prior messages — the user turn precedes the corresponding model turn. -/
theorem C4_lightweight_empty_reply (db : DB) (sessionField msgField : Option String)
    (today now tsU tsM : String) (sid umsg : String)
    (hsid : sid = strip ((orNone sessionField).getD today))
    (humsg : umsg = strip (msgField.getD ""))
    (hne : umsg ≠ "") :
    (∀ t : Option String, strip (t.getD "") = "" →
      chat_once db sessionField msgField today now tsU tsM (.ok t)
        = (ChatLog.append
             (ChatLog.append (ChatLog.create_session db sid now)
               sid "user" umsg tsU)
             sid "model" "(empty reply)" tsM,
           .replyOk "(empty reply)"))
    ∧ (∀ outcome : SendOutcome, ∃ rest,
        (chat_once db sessionField msgField today now tsU tsM outcome).1.messages
          = db.messages
              ++ (⟨db.next_id, sid, "user", umsg, tsU⟩ : MessageRow) :: rest) := by
  subst hsid humsg
  constructor
  · intro t ht
    unfold chat_once
    rw [if_neg hne]
    simp [ht]
  · intro outcome
    unfold chat_once
    rw [if_neg hne]
    cases outcome with
    | raised e =>
      refine ⟨[], ?_⟩
      simp [ChatLog.append, create_session_messages, create_session_next_id]
    | ok t =>
      refine ⟨[⟨db.next_id + 1, strip ((orNone sessionField).getD today), "model",
        (if strip (t.getD "") = "" then "(empty reply)" else strip (t.getD "")),
        tsM⟩], ?_⟩
      simp [ChatLog.append, create_session_messages, create_session_next_id]

/-- Witness for C4: message `"hi"`, no session id (defaulting to the compact
date), the model replying with whitespace only. -/
theorem C4_lightweight_empty_reply_witness :
    ("20250101" : String) = strip ((orNone none).getD "20250101")
    ∧ ("hi" : String) = strip ((some "hi" : Option String).getD "")
    ∧ ("hi" : String) ≠ ""
    ∧ strip ((some "  " : Option String).getD "") = ""
    ∧ chat_once DB.empty none (some "hi") "20250101" "n" "t1" "t2" (.ok (some "  "))
        = (ChatLog.append
             (ChatLog.append (ChatLog.create_session DB.empty "20250101" "n")
               "20250101" "user" "hi" "t1")
             "20250101" "model" "(empty reply)" "t2",
           .replyOk "(empty reply)") :=
  ⟨rfl, rfl, by decide, by decide,
   (C4_lightweight_empty_reply DB.empty none (some "hi") "20250101" "n" "t1" "t2"
      "20250101" "hi" rfl rfl (by decide)).1 (some "  ") (by decide)⟩

/-! ### C1 and C8: key resolution -/

theorem truthy_none : truthy none = false := rfl

theorem dotenvLine_ne_empty {raw v : String} (h : dotenvLine raw = some v) :
    v ≠ "" := by
  simp only [dotenvLine] at h
  split at h
  · exact absurd h (by simp)
  · split at h
    · exact absurd h (by simp)
    · split at h
      · exact absurd h (by simp)
      · split_ifs at h with hA hB
        · injection h with h'
          exact h' ▸ hA.2
        · injection h with h'
          exact h' ▸ hB.2

theorem read_dotenv_ne_empty {f : Option (List String)} {k : String}
    (h : _read_dotenv f = some k) : k ≠ "" := by
  cases f with
  | none => simp [_read_dotenv] at h
  | some lines =>
    simp only [_read_dotenv] at h
    induction lines with
    | nil => simp at h
    | cons l ls ih =>
      rw [List.findSome?_cons] at h
      cases hd : dotenvLine l with
      | some v =>
        rw [hd] at h
        injection h with h'
        exact h' ▸ dotenvLine_ne_empty hd
      | none =>
        rw [hd] at h
        exact ih h

theorem first_line_ne_empty {f : Option String} {k : String}
    (h : _read_first_line f = some k) : k ≠ "" := by
  cases f with
  | none => simp [_read_first_line] at h
  | some c =>
    simp only [_read_first_line] at h
    split at h
    · exact absurd h (by simp)
    · next hne =>
      injection h with h'
      exact h' ▸ hne

/-- C1 (amended): `load_api_key` resolves in strict priority order — a
non-empty explicit key is returned stripped; else a non-empty
`GEMINI_API_KEY` environment value; else a non-empty `GOOGLE_API_KEY`
environment value; else the `.env` match; else the entire content of
`~/.gemini-api-key` stripped of surrounding whitespace (not just its first
line) when non-blank; and when every source yields nothing, the process
exits with a diagnostic that marks the four non-explicit sources as
"not found" (the explicit-flag source appears only in the remediation
instructions) and lists a remediation line for each of the four methods. -/
theorem C1_load_api_key_priority (env : KeyEnv) :
    (∀ p, env.preferred = some p → p ≠ "" →
      load_api_key env = .ok (strip p))
    ∧ (truthy env.preferred = false → ∀ g, env.geminiEnv = some g → g ≠ "" →
        load_api_key env = .ok (strip g))
    ∧ (truthy env.preferred = false → truthy env.geminiEnv = false →
        ∀ g, env.googleEnv = some g → g ≠ "" →
        load_api_key env = .ok (strip g))
    ∧ (truthy env.preferred = false → truthy env.geminiEnv = false →
        truthy env.googleEnv = false →
        ∀ k, _read_dotenv env.dotenvFile = some k →
        load_api_key env = .ok (strip k))
    ∧ (truthy env.preferred = false → truthy env.geminiEnv = false →
        truthy env.googleEnv = false → _read_dotenv env.dotenvFile = none →
        ∀ k, _read_first_line env.homeFile = some k →
        load_api_key env = .ok (strip k))
    ∧ (truthy env.preferred = false → truthy env.geminiEnv = false →
        truthy env.googleEnv = false → _read_dotenv env.dotenvFile = none →
        _read_first_line env.homeFile = none →
        load_api_key env = .error (String.intercalate "\n"
          ["Missing Gemini API key. I looked in:",
           "  - env:GEMINI_API_KEY: not found",
           "  - env:GOOGLE_API_KEY: not found",
           "  - .env: not found",
           "  - ~/.gemini-api-key: not found",
           "",
           "Fix one of the following:",
           "  • Pass a flag:    python therapist_chatbot.py --api-key YOUR_KEY",
           "  • Export env var: export GEMINI_API_KEY=YOUR_KEY   (zsh/bash)",
           "  • Put it in .env: echo 'GEMINI_API_KEY=YOUR_KEY' > .env",
           "  • Save a file:    echo 'YOUR_KEY' > ~/.gemini-api-key"])) := by
  refine ⟨?_, ?_, ?_, ?_, ?_, ?_⟩
  · intro p hp hne
    have hts : truthy (some p) = true := by simp [truthy, hne]
    simp [load_api_key, hp, hts]
  · intro h0 g hg hne
    have hts : truthy (some g) = true := by simp [truthy, hne]
    simp [load_api_key, h0, hg, hts]
  · intro h0 h1 g hg hne
    have hts : truthy (some g) = true := by simp [truthy, hne]
    simp [load_api_key, h0, h1, hg, hts]
  · intro h0 h1 h2 k hk
    have hts : truthy (some k) = true := by
      simp [truthy, read_dotenv_ne_empty hk]
    simp [load_api_key, h0, h1, h2, hk, hts]
  · intro h0 h1 h2 h3 k hk
    have hts : truthy (some k) = true := by
      simp [truthy, first_line_ne_empty hk]
    simp [load_api_key, h0, h1, h2, h3, hk, hts, truthy_none]
  · intro h0 h1 h2 h3 h4
    simp only [load_api_key, h0, h1, h2, h3, h4, truthy_none,
      Bool.false_eq_true, if_false]
    rfl

set_option maxRecDepth 4096 in
/-- Counterexample to C1 as stated: (i) with all five sources absent, the
exit diagnostic marks only four sources (not five) as "not found" — the
explicit-key source is never listed; (ii) a multi-line `~/.gemini-api-key`
does not yield its first non-blank line but the whole stripped file content;
(iii) an environment variable that is set but empty is skipped rather than
returned. -/
theorem C1_load_api_key_counterexample :
    (match load_api_key ⟨none, none, none, none, none⟩ with
      | .error m => (splitLines m).countP (fun l => endswith "not found" l)
      | .ok _ => 0) = 4
    ∧ load_api_key ⟨none, none, none, none, some "line1\nline2"⟩
        = .ok "line1\nline2"
    ∧ load_api_key ⟨none, some "", some "g", none, none⟩ = .ok "g" := by
  refine ⟨?_, ?_, ?_⟩ <;> rfl

/-- Witness for C1: the `.env` branch fires once the flag and both
environment variables are absent. -/
theorem C1_load_api_key_priority_witness :
    truthy (none : Option String) = false
    ∧ _read_dotenv (some ["# comment", "", "GOOGLE_API_KEY=\"g\""]) = some "g"
    ∧ load_api_key
        ⟨none, none, none, some ["# comment", "", "GOOGLE_API_KEY=\"g\""], none⟩
        = .ok (strip "g") :=
  ⟨rfl, rfl,
   (C1_load_api_key_priority
      ⟨none, none, none, some ["# comment", "", "GOOGLE_API_KEY=\"g\""],
       none⟩).2.2.2.1 rfl rfl rfl "g" rfl⟩

/-- C8 (amended): in `_read_dotenv`, a missing file is no match; a line that
is blank or a `#` comment after stripping is skipped; the first line (in
file order) that yields a key decides the result, regardless of which of
the two variable names it carries; and surrounding quotes are stripped from
the value. -/
theorem C8_dotenv_semantics :
    _read_dotenv none = none
    ∧ (∀ l rest, (strip l = "" ∨ startswith "#" (strip l) = true) →
        _read_dotenv (some (l :: rest)) = _read_dotenv (some rest))
    ∧ (∀ l rest v, dotenvLine l = some v →
        _read_dotenv (some (l :: rest)) = some v)
    ∧ (∀ l rest, dotenvLine l = none →
        _read_dotenv (some (l :: rest)) = _read_dotenv (some rest))
    ∧ _read_dotenv (some ["GEMINI_API_KEY=\"abc\""]) = some "abc" := by
  have hskip : ∀ l rest, dotenvLine l = none →
      _read_dotenv (some (l :: rest)) = _read_dotenv (some rest) := by
    intro l rest h
    simp only [_read_dotenv, List.findSome?_cons, h]
  refine ⟨rfl, ?_, ?_, hskip, rfl⟩
  · intro l rest h
    apply hskip
    rcases h with h | h
    · simp [dotenvLine, h]
    · by_cases h0 : strip l = ""
      · simp [dotenvLine, h0]
      · simp [dotenvLine, h0, h]
  · intro l rest v h
    simp only [_read_dotenv, List.findSome?_cons, h]

/-- Counterexample to C8 as stated: with a `GOOGLE_API_KEY` line before a
`GEMINI_API_KEY` line, the `GOOGLE_API_KEY` value wins — the match is by
file order, not by preference for the `GEMINI_API_KEY` variable name. -/
theorem C8_dotenv_counterexample :
    _read_dotenv (some ["GOOGLE_API_KEY=g", "GEMINI_API_KEY=m"]) = some "g"
    ∧ _read_dotenv (some ["GOOGLE_API_KEY=g", "GEMINI_API_KEY=m"]) ≠ some "m" := by
  refine ⟨rfl, ?_⟩
  decide

/-- Witness for C8: a matching first line decides against a later line, and
a comment line is skipped. -/
theorem C8_dotenv_semantics_witness :
    dotenvLine "GEMINI_API_KEY=k1" = some "k1"
    ∧ _read_dotenv (some ["GEMINI_API_KEY=k1", "GOOGLE_API_KEY=k2"]) = some "k1"
    ∧ (strip "# note" = "" ∨ startswith "#" (strip "# note") = true)
    ∧ _read_dotenv (some ["# note", "GOOGLE_API_KEY=k2"]) = some "k2" :=
  ⟨rfl,
   C8_dotenv_semantics.2.2.1 "GEMINI_API_KEY=k1" ["GOOGLE_API_KEY=k2"] "k1" rfl,
   Or.inr rfl,
   (C8_dotenv_semantics.2.1 "# note" ["GOOGLE_API_KEY=k2"]
      (Or.inr rfl)).trans rfl⟩

end Spec2Proof
